import Mathlib

/-!
Shallow embedding of the authentication flow of the inventory-management
web application: the frontend auth session store (`authStore.ts`), the
HTTP client's 401 response interceptor (`services/api.ts`), and the
backend `AuthService` (`auth.service.ts`).

Asynchronous JavaScript code is embedded as pure functions over explicit
state; the outcome of each external network call (refresh, logout, jwt
verification, database lookups) is passed in as an argument, and the side
effects performed by a handler are returned as an explicit ordered event
trace.
-/

/-- The `user` summary object held by the session store
(`{ id, email }` as returned by the auth endpoints). -/
structure UserSummary where
  id : Nat
  email : String
deriving DecidableEq

/-- The Zustand auth store state (`AuthState` data fields in
`authStore.ts`): `user`, `accessToken`, `isAuthenticated`, `isLoading`. -/
structure Session where
  user : Option UserSummary
  accessToken : Option String
  isAuthenticated : Bool
  isLoading : Bool
deriving DecidableEq

/-- A JavaScript error value as the auth code inspects it:
`isError` models `instanceof Error`, `isAxiosError` models
`instanceof AxiosError`, `response` is `err.response?.status` (`none`
when no response was received), `code` is `err.code`
(e.g. `some "ERR_NETWORK"`), and `message` is `err.message`. -/
structure JsError where
  isError : Bool
  isAxiosError : Bool
  response : Option Nat
  code : Option String
  message : String
deriving DecidableEq

/-- An axios request config as the interceptors see it: the one-shot
`_retry` marker and the `Authorization` header. -/
structure RequestConfig where
  _retry : Bool
  authHeader : Option String
deriving DecidableEq

/-- Module-level state of the HTTP client: the `isRefreshing` flag of
`services/api.ts` plus the session store it mutates. -/
structure ClientState where
  isRefreshing : Bool
  session : Session
deriving DecidableEq

/-- Observable side effects of one run of the response error
interceptor, in program order. -/
inductive Event where
  | setRefreshing (b : Bool)
  | refreshCall
  | storeAccessToken (tok : String)
  | resubmitRequest
  | logoutCall
  | clearSessionDirect
deriving DecidableEq

/-- Environment outcome of a `POST /auth/refresh` call
(`authApi.refresh` / `api.post('/auth/refresh')`). -/
inductive RefreshOutcome where
  | success (access_token : String) (user : UserSummary)
  | failure (err : JsError)
deriving DecidableEq

/-- Environment outcome of a `POST /auth/logout` call. -/
inductive LogoutOutcome where
  | success
  | failure (err : JsError)
deriving DecidableEq

/-- The network-error test of the interceptor's catch branch:
`err instanceof AxiosError && (err.code === 'ERR_NETWORK' || !err.response)`. -/
def isNetworkError (err : JsError) : Bool :=
  err.isAxiosError && (err.code == some "ERR_NETWORK" || err.response == none)

/-- The `isExpectedError` test inside `initAuth`'s catch:
a 401 axios response, an `ERR_NETWORK` axios error, or a plain
`Error` whose message is `'Network Error'`. -/
def isExpectedInitError (err : JsError) : Bool :=
  (err.isAxiosError && err.response == some 401) ||
  (err.isAxiosError && err.code == some "ERR_NETWORK") ||
  (err.isError && err.message == "Network Error")

/-- Result of `initAuth`: the session written by `set({...})` and
whether `console.error` was invoked. -/
structure InitResult where
  session : Session
  consoleErrorLogged : Bool
deriving DecidableEq

/-- `initAuth` from `authStore.ts`: awaits `authApi.refresh()`; on
success stores user and token with `isAuthenticated = true`,
`isLoading = false`; on any thrown error logs via `console.error` only
when the error is not expected, then sets the cleared, non-loading
session. Both branches set all four fields, so the prior session does
not influence the result. -/
def initAuth (outcome : RefreshOutcome) : InitResult :=
  match outcome with
  | RefreshOutcome.success tok u =>
      { session := { user := some u, accessToken := some tok,
                     isAuthenticated := true, isLoading := false },
        consoleErrorLogged := false }
  | RefreshOutcome.failure err =>
      { session := { user := none, accessToken := none,
                     isAuthenticated := false, isLoading := false },
        consoleErrorLogged := !(isExpectedInitError err) }

/-- Result of the store's `logout`: the resulting session and the
network calls it issued. -/
structure LogoutResult where
  session : Session
  events : List Event
deriving DecidableEq

/-- `logout` from `authStore.ts`: `try { await authApi.logout() }
catch { warn } finally { set({user: null, accessToken: null,
isAuthenticated: false}) }`. The logout network call is always issued;
the session fields are cleared in the `finally` block whether that call
succeeds or throws, and `isLoading` is not among the fields written. -/
def logout (outcome : LogoutOutcome) (s : Session) : LogoutResult :=
  match outcome with
  | LogoutOutcome.success =>
      { session := { user := none, accessToken := none,
                     isAuthenticated := false, isLoading := s.isLoading },
        events := [Event.logoutCall] }
  | LogoutOutcome.failure _ =>
      { session := { user := none, accessToken := none,
                     isAuthenticated := false, isLoading := s.isLoading },
        events := [Event.logoutCall] }

/-- What the interceptor returns to the original caller: either the
promise of the resubmitted request (`return api(originalRequest)`) or a
rejection (`return Promise.reject(...)`). -/
inductive InterceptorResult where
  | retried (req : RequestConfig)
  | rejected (err : JsError)
deriving DecidableEq

/-- What one run of the response error interceptor hands back: the value
returned to the original caller, the final state of the (shared) request
config object, the final client state, and the event trace. -/
structure HandlerOutcome where
  result : InterceptorResult
  request : RequestConfig
  state : ClientState
  events : List Event
deriving DecidableEq

/-- The response error interceptor of `services/api.ts`
(`api.interceptors.response.use`, error handler). `refreshOutcome` and
`logoutOutcome` are the environment's answers to the refresh and logout
network calls, consulted only if the corresponding call is made. -/
def responseErrorInterceptor (error : JsError) (originalRequest : RequestConfig)
    (refreshOutcome : RefreshOutcome) (logoutOutcome : LogoutOutcome)
    (st : ClientState) : HandlerOutcome :=
  if error.response == some 401 && !originalRequest._retry then
    let req1 := { originalRequest with _retry := true }
    if !st.isRefreshing then
      let st1 := { st with isRefreshing := true }
      match refreshOutcome with
      | RefreshOutcome.success access_token _user =>
          let st2 := { st1 with
            session := { st1.session with accessToken := some access_token } }
          let st3 := { st2 with isRefreshing := false }
          let req2 := { req1 with authHeader := some ("Bearer " ++ access_token) }
          { result := InterceptorResult.retried req2,
            request := req2,
            state := st3,
            events := [Event.setRefreshing true, Event.refreshCall,
                       Event.storeAccessToken access_token,
                       Event.setRefreshing false, Event.resubmitRequest] }
      | RefreshOutcome.failure err =>
          let st2 := { st1 with isRefreshing := false }
          if isNetworkError err then
            let st3 := { st2 with
              session := { st2.session with
                user := none, accessToken := none, isAuthenticated := false } }
            { result := InterceptorResult.rejected err,
              request := req1,
              state := st3,
              events := [Event.setRefreshing true, Event.refreshCall,
                         Event.setRefreshing false, Event.clearSessionDirect] }
          else
            let lr := logout logoutOutcome st2.session
            { result := InterceptorResult.rejected err,
              request := req1,
              state := { st2 with session := lr.session },
              events := [Event.setRefreshing true, Event.refreshCall,
                         Event.setRefreshing false] ++ lr.events }
    else
      { result := InterceptorResult.rejected error,
        request := req1,
        state := st,
        events := [] }
  else
    { result := InterceptorResult.rejected error,
      request := originalRequest,
      state := st,
      events := [] }

/-!
Backend `AuthService` (`src/backend/src/auth/auth.service.ts`). Tokens
are modelled by the sign request the service makes (`jwtService.sign`):
the payload fields and the signing options actually passed. `bcrypt`
hashing and comparison, the TypeORM `UsersService` lookups and the jwt
verification are external calls whose results are inputs.
-/

/-- The options object passed to `res.cookie` for the refresh token.
The source passes no `maxAge`/`expires`, so none is modelled. -/
structure CookieOptions where
  httpOnly : Bool
  secure : Bool
  sameSite : String
  path : String
deriving DecidableEq

/-- A jwt sign request: the payload (`{ sub, email }`) and the options
(`usesRefreshSecret` is whether `secret: process.env.JWT_REFRESH_SECRET`
was passed, `expiresIn` the `expiresIn` option if any). -/
structure TokenSpec where
  sub : Nat
  email : String
  usesRefreshSecret : Bool
  expiresIn : Option String
deriving DecidableEq

/-- A `res.cookie(name, value, options)` call. -/
structure SetCookie where
  name : String
  token : TokenSpec
  options : CookieOptions
deriving DecidableEq

/-- The `User` TypeORM entity (`id`, `email`, `password`, `createdAt`). -/
structure UserEntity where
  id : Nat
  email : String
  password : String
  createdAt : String
deriving DecidableEq

/-- The user entity as a JavaScript object: its enumerable fields in
declaration order, as key-value pairs. -/
def UserEntity.toObj (u : UserEntity) : List (String × String) :=
  [("id", toString u.id), ("email", u.email),
   ("password", u.password), ("createdAt", u.createdAt)]

/-- The rest destructuring
`const { password: _, ...userWithoutPassword } = user`: every field of
the user object except `password`. -/
def userWithoutPassword (u : UserEntity) : List (String × String) :=
  u.toObj.filter (fun p => !(p.1 == "password"))

/-- The JSON body of a successful register/login response:
`{ access_token, user: userWithoutPassword }`. -/
structure AuthTokensResponse where
  access_token : TokenSpec
  userObj : List (String × String)
deriving DecidableEq

/-- A successful register/login outcome: response body plus the
`res.cookie` call made. -/
structure AuthSuccess where
  response : AuthTokensResponse
  cookie : SetCookie
deriving DecidableEq

namespace AuthService

/-- `AuthService.register`: throws `ConflictException` when
`usersService.findByEmail` finds an existing user; otherwise creates
the user with the bcrypt-hashed password (`hashedPassword`, the result
of `bcrypt.hash(password, 10)`; `createdId` and `createdAt` are
database-assigned), signs a default-option access token and a refresh
token with the refresh secret and `expiresIn: '7d'`, sets the
`refresh_token` HttpOnly cookie, and returns the access token with the
password-stripped user. -/
def register (email hashedPassword : String)
    (existingUser : Option UserEntity)
    (createdId : Nat) (createdAt : String) : Except String AuthSuccess :=
  match existingUser with
  | some _ => Except.error "Email already exists"
  | none =>
      let user : UserEntity :=
        { id := createdId, email := email,
          password := hashedPassword, createdAt := createdAt }
      let access_token : TokenSpec :=
        { sub := user.id, email := user.email,
          usesRefreshSecret := false, expiresIn := none }
      let refresh_token : TokenSpec :=
        { sub := user.id, email := user.email,
          usesRefreshSecret := true, expiresIn := some "7d" }
      Except.ok
        { response := { access_token := access_token,
                        userObj := userWithoutPassword user },
          cookie := { name := "refresh_token", token := refresh_token,
                      options := { httpOnly := true, secure := false,
                                   sameSite := "lax", path := "/" } } }

/-- `AuthService.login`: `UnauthorizedException` when
`usersService.findByEmail` returns nothing or `bcrypt.compare` fails
(`isPasswordValid` is the comparison's result); otherwise the same
token, cookie and password-stripped-user response as `register`. -/
def login (foundUser : Option UserEntity)
    (isPasswordValid : Bool) : Except String AuthSuccess :=
  match foundUser with
  | none => Except.error "Invalid credentials"
  | some user =>
      if !isPasswordValid then Except.error "Invalid credentials"
      else
        let access_token : TokenSpec :=
          { sub := user.id, email := user.email,
            usesRefreshSecret := false, expiresIn := none }
        let refresh_token : TokenSpec :=
          { sub := user.id, email := user.email,
            usesRefreshSecret := true, expiresIn := some "7d" }
        Except.ok
          { response := { access_token := access_token,
                          userObj := userWithoutPassword user },
            cookie := { name := "refresh_token", token := refresh_token,
                        options := { httpOnly := true, secure := false,
                                     sameSite := "lax", path := "/" } } }

/-- Result of `jwtService.verifyAsync` on the refresh cookie: the
decoded payload, or a verification failure (expired/invalid). -/
inductive VerifyOutcome where
  | valid (sub : Nat) (email : String)
  | invalid
deriving DecidableEq

/-- The JSON body of a successful `POST /auth/refresh`:
`{ access_token, user: { id, email } }`. -/
structure RefreshSuccess where
  access_token : TokenSpec
  userObj : List (String × String)
deriving DecidableEq

/-- `AuthService.refresh`: 401 when no `refresh_token` cookie is
present; inside the try, verification failure or a missing user both
surface as `UnauthorizedException('Invalid refresh token')` via the
catch; on success signs a new default-option access token and returns
it with only the user's `id` and `email`. -/
def refresh (cookieRefreshToken : Option String) (verify : VerifyOutcome)
    (findById : Nat → Option UserEntity) : Except String RefreshSuccess :=
  match cookieRefreshToken with
  | none => Except.error "No refresh token provided"
  | some _ =>
      match verify with
      | VerifyOutcome.invalid => Except.error "Invalid refresh token"
      | VerifyOutcome.valid sub _ =>
          match findById sub with
          | none => Except.error "Invalid refresh token"
          | some user =>
              Except.ok
                { access_token := { sub := user.id, email := user.email,
                                    usesRefreshSecret := false,
                                    expiresIn := none },
                  userObj := [("id", toString user.id),
                              ("email", user.email)] }

end AuthService

/-!
Concurrency model for the refresh guard. The JavaScript runtime is
single-threaded and cooperative: an interceptor run executes atomically
between `await` points. For a 401 handler the segment up to the first
`await` contains both the read of `isRefreshing` and (when it was
false) the write `isRefreshing = true`, so check-then-set is one
atomic step; the refresh network call is the suspension point, and the
flag is cleared when the handler resumes. Two concurrent 401 handlers
are modelled as interleaved atomic steps over a shared flag.
-/

/-- Phase of one 401 handler: not yet scheduled, suspended on an
outstanding refresh network call, or finished. -/
inductive HPhase where
  | ready
  | waiting
  | done
deriving DecidableEq

/-- Shared state of two concurrent 401 handlers and the module-level
`isRefreshing` flag. -/
structure TwoClients where
  h1 : HPhase
  h2 : HPhase
  isRefreshing : Bool
deriving DecidableEq

/-- Atomic steps of the interleaved handlers. `start` is the segment up
to the refresh `await`: it reads `isRefreshing`, and finding it false
sets it and issues the refresh call in the same uninterrupted step.
`reject` is the same segment finding the flag already true: the handler
falls through and rejects without refreshing. `finish` is the segment
after the refresh call resolves or throws: it clears the flag. -/
inductive RefreshStep : TwoClients → TwoClients → Prop where
  | start1 (s : TwoClients) (hr : s.h1 = HPhase.ready)
      (hf : s.isRefreshing = false) :
      RefreshStep s { s with h1 := HPhase.waiting, isRefreshing := true }
  | start2 (s : TwoClients) (hr : s.h2 = HPhase.ready)
      (hf : s.isRefreshing = false) :
      RefreshStep s { s with h2 := HPhase.waiting, isRefreshing := true }
  | reject1 (s : TwoClients) (hr : s.h1 = HPhase.ready)
      (hf : s.isRefreshing = true) :
      RefreshStep s { s with h1 := HPhase.done }
  | reject2 (s : TwoClients) (hr : s.h2 = HPhase.ready)
      (hf : s.isRefreshing = true) :
      RefreshStep s { s with h2 := HPhase.done }
  | finish1 (s : TwoClients) (hw : s.h1 = HPhase.waiting) :
      RefreshStep s { s with h1 := HPhase.done, isRefreshing := false }
  | finish2 (s : TwoClients) (hw : s.h2 = HPhase.waiting) :
      RefreshStep s { s with h2 := HPhase.done, isRefreshing := false }

/-- Initial state: both handlers about to run, no refresh in flight. -/
def initialClients : TwoClients :=
  { h1 := HPhase.ready, h2 := HPhase.ready, isRefreshing := false }

/-- Guard invariant: whenever a refresh call is outstanding the flag is
set, and at most one refresh call is outstanding. -/
def refreshInvariant (s : TwoClients) : Prop :=
  ((s.h1 = HPhase.waiting ∨ s.h2 = HPhase.waiting) → s.isRefreshing = true) ∧
  ¬(s.h1 = HPhase.waiting ∧ s.h2 = HPhase.waiting)

theorem refreshInvariant_preserved {s t : TwoClients} (hst : RefreshStep s t)
    (hs : refreshInvariant s) : refreshInvariant t := by
  obtain ⟨himp, hnot⟩ := hs
  cases hst with
  | start1 hr hf =>
      refine ⟨fun _ => rfl, fun hw => ?_⟩
      have := himp (Or.inr hw.2)
      simp [hf] at this
  | start2 hr hf =>
      refine ⟨fun _ => rfl, fun hw => ?_⟩
      have := himp (Or.inl hw.1)
      simp [hf] at this
  | reject1 hr hf =>
      refine ⟨fun h => ?_, fun hw => ?_⟩
      · rcases h with h | h
        · simp at h
        · exact himp (Or.inr h)
      · simp at hw
  | reject2 hr hf =>
      refine ⟨fun h => ?_, fun hw => ?_⟩
      · rcases h with h | h
        · exact himp (Or.inl h)
        · simp at h
      · simp at hw
  | finish1 hw =>
      refine ⟨fun h => ?_, fun hboth => ?_⟩
      · rcases h with h | h
        · simp at h
        · exact absurd ⟨hw, h⟩ hnot
      · simp at hboth
  | finish2 hw =>
      refine ⟨fun h => ?_, fun hboth => ?_⟩
      · rcases h with h | h
        · exact absurd ⟨h, hw⟩ hnot
        · simp at h
      · simp at hboth

/-!
Concrete sample values used by witnesses and counterexamples.
-/

/-- A sample logged-in user. -/
def sampleUser : UserSummary := { id := 1, email := "a@b.com" }

/-- A sample authenticated session. -/
def sampleSession : Session :=
  { user := some sampleUser, accessToken := some "t0",
    isAuthenticated := true, isLoading := false }

/-- A 401 axios error on an API request. -/
def err401 : JsError :=
  { isError := true, isAxiosError := true, response := some 401,
    code := none, message := "Request failed with status code 401" }

/-- A 401 axios error from the refresh endpoint (invalid refresh token). -/
def errRefresh401 : JsError :=
  { isError := true, isAxiosError := true, response := some 401,
    code := none, message := "Invalid refresh token" }

/-- A network-unreachable axios error (no response received). -/
def errNetwork : JsError :=
  { isError := true, isAxiosError := true, response := none,
    code := some "ERR_NETWORK", message := "Network Error" }

/-- A request that has not been retried yet. -/
def freshRequest : RequestConfig := { _retry := false, authHeader := some "Bearer t0" }

/-- A request already marked retried. -/
def retriedRequest : RequestConfig := { _retry := true, authHeader := some "Bearer t0" }

/-- Client state with no refresh in flight. -/
def idleState : ClientState := { isRefreshing := false, session := sampleSession }

/-- Client state while a refresh is in flight. -/
def busyState : ClientState := { isRefreshing := true, session := sampleSession }

/-- Claim C1: for a 401 response on a not-yet-retried request while no
refresh is in flight, the interceptor sets the refresh-in-flight flag,
issues exactly one refresh call, on success stores the new access token
into the session, clears the flag, resubmits the original request
exactly once with the new token, and returns that retry's result to the
original caller. The event trace lists these steps in program order. -/
theorem interceptor_refresh_success_retries_once
    (error : JsError) (req : RequestConfig) (tok : String) (u : UserSummary)
    (lo : LogoutOutcome) (st : ClientState)
    (h401 : error.response = some 401) (hretry : req._retry = false)
    (hflight : st.isRefreshing = false) :
    responseErrorInterceptor error req (RefreshOutcome.success tok u) lo st =
      { result := InterceptorResult.retried
          { _retry := true, authHeader := some ("Bearer " ++ tok) },
        request := { _retry := true, authHeader := some ("Bearer " ++ tok) },
        state := { isRefreshing := false,
                   session := { st.session with accessToken := some tok } },
        events := [Event.setRefreshing true, Event.refreshCall,
                   Event.storeAccessToken tok, Event.setRefreshing false,
                   Event.resubmitRequest] } ∧
    List.count Event.refreshCall
      [Event.setRefreshing true, Event.refreshCall, Event.storeAccessToken tok,
       Event.setRefreshing false, Event.resubmitRequest] = 1 ∧
    List.count Event.resubmitRequest
      [Event.setRefreshing true, Event.refreshCall, Event.storeAccessToken tok,
       Event.setRefreshing false, Event.resubmitRequest] = 1 := by
  refine ⟨?_, rfl, rfl⟩
  simp [responseErrorInterceptor, h401, hretry, hflight]

/-- Witness for C1 at concrete inputs. -/
theorem interceptor_refresh_success_retries_once_witness :
    responseErrorInterceptor err401 freshRequest
        (RefreshOutcome.success "t1" sampleUser) LogoutOutcome.success idleState =
      { result := InterceptorResult.retried
          { _retry := true, authHeader := some ("Bearer " ++ "t1") },
        request := { _retry := true, authHeader := some ("Bearer " ++ "t1") },
        state := { isRefreshing := false,
                   session := { idleState.session with accessToken := some "t1" } },
        events := [Event.setRefreshing true, Event.refreshCall,
                   Event.storeAccessToken "t1", Event.setRefreshing false,
                   Event.resubmitRequest] } ∧
    List.count Event.refreshCall
      [Event.setRefreshing true, Event.refreshCall, Event.storeAccessToken "t1",
       Event.setRefreshing false, Event.resubmitRequest] = 1 ∧
    List.count Event.resubmitRequest
      [Event.setRefreshing true, Event.refreshCall, Event.storeAccessToken "t1",
       Event.setRefreshing false, Event.resubmitRequest] = 1 :=
  interceptor_refresh_success_retries_once err401 freshRequest "t1" sampleUser
    LogoutOutcome.success idleState rfl rfl rfl

/-- Counterexample to claim C2: when the refresh attempt fails, the
interceptor executes `return Promise.reject(err)` with `err` the error
thrown by the refresh call, not the original request's error. At a
concrete input where the two errors differ, the value handed to the
original caller is the refresh error and is not the original error. -/
theorem interceptor_propagates_refresh_error_cex :
    (responseErrorInterceptor err401 freshRequest
        (RefreshOutcome.failure errRefresh401) LogoutOutcome.success idleState).result =
      InterceptorResult.rejected errRefresh401 ∧
    (responseErrorInterceptor err401 freshRequest
        (RefreshOutcome.failure errRefresh401) LogoutOutcome.success idleState).result ≠
      InterceptorResult.rejected err401 := by
  decide

/-- Claim C2, amended: for every request whose 401-triggered refresh
attempt fails (for any reason), the error propagated to the original
caller is the refresh attempt's error, and the original request is not
retried (no resubmission occurs). -/
theorem interceptor_refresh_failure_propagates_refresh_error
    (error : JsError) (req : RequestConfig) (rerr : JsError)
    (lo : LogoutOutcome) (st : ClientState)
    (h401 : error.response = some 401) (hretry : req._retry = false)
    (hflight : st.isRefreshing = false) :
    (responseErrorInterceptor error req (RefreshOutcome.failure rerr) lo st).result =
      InterceptorResult.rejected rerr ∧
    Event.resubmitRequest ∉
      (responseErrorInterceptor error req (RefreshOutcome.failure rerr) lo st).events := by
  cases hne : isNetworkError rerr <;> cases lo <;>
    simp [responseErrorInterceptor, h401, hretry, hflight, hne, logout]

/-- Witness for the amended C2 at concrete inputs. -/
theorem interceptor_refresh_failure_propagates_refresh_error_witness :
    (responseErrorInterceptor err401 freshRequest
        (RefreshOutcome.failure errNetwork) LogoutOutcome.success idleState).result =
      InterceptorResult.rejected errNetwork ∧
    Event.resubmitRequest ∉
      (responseErrorInterceptor err401 freshRequest
        (RefreshOutcome.failure errNetwork) LogoutOutcome.success idleState).events :=
  interceptor_refresh_failure_propagates_refresh_error err401 freshRequest errNetwork
    LogoutOutcome.success idleState rfl rfl rfl

/-- Claim C3: a request already marked retried that receives a second
401 is not retried again and triggers no refresh call: the interceptor
leaves the request, the flag and the session untouched, performs no
network action, and rejects with the incoming error immediately. -/
theorem interceptor_second_401_no_retry
    (error : JsError) (req : RequestConfig) (ro : RefreshOutcome)
    (lo : LogoutOutcome) (st : ClientState)
    (h401 : error.response = some 401) (hretry : req._retry = true) :
    responseErrorInterceptor error req ro lo st =
      { result := InterceptorResult.rejected error, request := req,
        state := st, events := [] } := by
  simp [responseErrorInterceptor, hretry]

/-- Witness for C3 at concrete inputs. -/
theorem interceptor_second_401_no_retry_witness :
    responseErrorInterceptor err401 retriedRequest
        (RefreshOutcome.success "t1" sampleUser) LogoutOutcome.success idleState =
      { result := InterceptorResult.rejected err401, request := retriedRequest,
        state := idleState, events := [] } :=
  interceptor_second_401_no_retry err401 retriedRequest
    (RefreshOutcome.success "t1" sampleUser) LogoutOutcome.success idleState rfl rfl

/-- Claim C4: under cooperative single-threaded scheduling — where the
check of the refresh-in-flight flag and its setting happen in one
atomic step with no suspension point between them (`RefreshStep.start1`
and `RefreshStep.start2`) — two interleaved 401 handlers never both
have a refresh network call outstanding: in every state reachable from
the initial one, at most one handler is suspended on a refresh call. -/
theorem refresh_single_flight (s : TwoClients)
    (h : Relation.ReflTransGen RefreshStep initialClients s) :
    ¬(s.h1 = HPhase.waiting ∧ s.h2 = HPhase.waiting) := by
  have hinv : refreshInvariant s := by
    induction h with
    | refl =>
        exact ⟨fun hc => by rcases hc with hc | hc <;> simp [initialClients] at hc,
               by simp [initialClients]⟩
    | tail hab hbc ih => exact refreshInvariant_preserved hbc ih
  exact hinv.2

/-- Witness for C4 at a concrete reachable state: after the first
handler's atomic check-then-set step, the second is not refreshing. -/
theorem refresh_single_flight_witness :
    ¬(({ h1 := HPhase.waiting, h2 := HPhase.ready, isRefreshing := true } : TwoClients).h1 =
        HPhase.waiting ∧
      ({ h1 := HPhase.waiting, h2 := HPhase.ready, isRefreshing := true } : TwoClients).h2 =
        HPhase.waiting) :=
  refresh_single_flight
    { h1 := HPhase.waiting, h2 := HPhase.ready, isRefreshing := true }
    (Relation.ReflTransGen.single (RefreshStep.start1 initialClients rfl rfl))

/-- Counterexample to claim C5: a 401 arriving while a refresh is in
flight is marked retried, but it is not retried once the flag clears —
the handler completes at once, returning a rejection of the original
error to the caller with an empty event trace, so no resubmission ever
happens for this request. -/
theorem concurrent_401_not_retried_cex :
    responseErrorInterceptor err401 freshRequest
        (RefreshOutcome.success "t1" sampleUser) LogoutOutcome.success busyState =
      { result := InterceptorResult.rejected err401,
        request := { _retry := true, authHeader := some "Bearer t0" },
        state := busyState, events := [] } := by
  decide

/-- Claim C5, amended: a request that receives a 401 while a refresh is
already in flight is marked retried and its error is then propagated
immediately to its caller, with no refresh call and no retry — neither
queued behind the in-flight refresh nor resubmitted when the flag
clears. -/
theorem concurrent_401_marked_and_rejected
    (error : JsError) (req : RequestConfig) (ro : RefreshOutcome)
    (lo : LogoutOutcome) (st : ClientState)
    (h401 : error.response = some 401) (hretry : req._retry = false)
    (hflight : st.isRefreshing = true) :
    responseErrorInterceptor error req ro lo st =
      { result := InterceptorResult.rejected error,
        request := { req with _retry := true },
        state := st, events := [] } := by
  simp [responseErrorInterceptor, h401, hretry, hflight]

/-- Witness for the amended C5 at concrete inputs. -/
theorem concurrent_401_marked_and_rejected_witness :
    responseErrorInterceptor errRefresh401 freshRequest
        (RefreshOutcome.success "t1" sampleUser) LogoutOutcome.success busyState =
      { result := InterceptorResult.rejected errRefresh401,
        request := { freshRequest with _retry := true },
        state := busyState, events := [] } :=
  concurrent_401_marked_and_rejected errRefresh401 freshRequest
    (RefreshOutcome.success "t1" sampleUser) LogoutOutcome.success busyState rfl rfl rfl

/-- Claim C6: when the refresh call fails with a network-level error
(`ERR_NETWORK` or no response received), the session is cleared
directly — `user = none`, `accessToken = none`,
`isAuthenticated = false` (with `isLoading` untouched) — and the event
trace contains no logout network call. -/
theorem refresh_network_error_clears_session_directly
    (error : JsError) (req : RequestConfig) (rerr : JsError)
    (lo : LogoutOutcome) (st : ClientState)
    (h401 : error.response = some 401) (hretry : req._retry = false)
    (hflight : st.isRefreshing = false) (hnet : isNetworkError rerr = true) :
    responseErrorInterceptor error req (RefreshOutcome.failure rerr) lo st =
      { result := InterceptorResult.rejected rerr,
        request := { req with _retry := true },
        state := { isRefreshing := false,
                   session := { st.session with
                     user := none, accessToken := none,
                     isAuthenticated := false } },
        events := [Event.setRefreshing true, Event.refreshCall,
                   Event.setRefreshing false, Event.clearSessionDirect] } := by
  simp [responseErrorInterceptor, h401, hretry, hflight, hnet]

/-- Witness for C6 at concrete inputs. -/
theorem refresh_network_error_clears_session_directly_witness :
    responseErrorInterceptor err401 freshRequest
        (RefreshOutcome.failure errNetwork) LogoutOutcome.success idleState =
      { result := InterceptorResult.rejected errNetwork,
        request := { freshRequest with _retry := true },
        state := { isRefreshing := false,
                   session := { idleState.session with
                     user := none, accessToken := none,
                     isAuthenticated := false } },
        events := [Event.setRefreshing true, Event.refreshCall,
                   Event.setRefreshing false, Event.clearSessionDirect] } :=
  refresh_network_error_clears_session_directly err401 freshRequest errNetwork
    LogoutOutcome.success idleState rfl rfl rfl rfl

/-- Claim C7: when the refresh call fails for any non-network reason,
the store's logout flow runs — issuing the best-effort logout network
call (`Event.logoutCall`) — and the session ends cleared whatever the
outcome of that logout call (`lo` is arbitrary): `user = none`,
`accessToken = none`, `isAuthenticated = false`, `isLoading`
untouched. -/
theorem refresh_other_error_invokes_logout
    (error : JsError) (req : RequestConfig) (rerr : JsError)
    (lo : LogoutOutcome) (st : ClientState)
    (h401 : error.response = some 401) (hretry : req._retry = false)
    (hflight : st.isRefreshing = false) (hnet : isNetworkError rerr = false) :
    responseErrorInterceptor error req (RefreshOutcome.failure rerr) lo st =
      { result := InterceptorResult.rejected rerr,
        request := { req with _retry := true },
        state := { isRefreshing := false,
                   session := { st.session with
                     user := none, accessToken := none,
                     isAuthenticated := false } },
        events := [Event.setRefreshing true, Event.refreshCall,
                   Event.setRefreshing false, Event.logoutCall] } := by
  cases lo <;> simp [responseErrorInterceptor, h401, hretry, hflight, hnet, logout]

/-- Witness for C7 at concrete inputs, with a logout call that throws. -/
theorem refresh_other_error_invokes_logout_witness :
    responseErrorInterceptor err401 freshRequest
        (RefreshOutcome.failure errRefresh401) (LogoutOutcome.failure errNetwork)
        idleState =
      { result := InterceptorResult.rejected errRefresh401,
        request := { freshRequest with _retry := true },
        state := { isRefreshing := false,
                   session := { idleState.session with
                     user := none, accessToken := none,
                     isAuthenticated := false } },
        events := [Event.setRefreshing true, Event.refreshCall,
                   Event.setRefreshing false, Event.logoutCall] } :=
  refresh_other_error_invokes_logout err401 freshRequest errRefresh401
    (LogoutOutcome.failure errNetwork) idleState rfl rfl rfl rfl

/-- Claim C8: every failing `initAuth` run settles the session to the
cleared, non-loading state; `console.error` fires exactly when the
error is not one of the expected kinds (401 response, `ERR_NETWORK`,
`'Network Error'` message), so expected failures log nothing; and no
outcome of `initAuth` — success included — leaves `isLoading` true. -/
theorem initAuth_settles_unauthenticated (err : JsError) (out : RefreshOutcome) :
    (initAuth (RefreshOutcome.failure err)).session =
      { user := none, accessToken := none,
        isAuthenticated := false, isLoading := false } ∧
    (initAuth (RefreshOutcome.failure err)).consoleErrorLogged =
      !(isExpectedInitError err) ∧
    (initAuth out).session.isLoading = false := by
  refine ⟨rfl, rfl, ?_⟩
  cases out <;> rfl

/-- Claim C9: every successful register and every successful login
response sets the `refresh_token` cookie with `httpOnly = true`,
`sameSite = "lax"`, `path = "/"`, and a cookie value signed as a
refresh token with a server-side expiry of seven days
(`expiresIn = "7d"` under the refresh secret). Success is forced
structurally: no existing user for register, a found user with a valid
password for login. -/
theorem auth_cookie_contract (email hp createdAt : String) (cid : Nat)
    (u : UserEntity) :
    (AuthService.register email hp none cid createdAt).map
        (fun r => (r.cookie.name, r.cookie.options.httpOnly,
                   r.cookie.options.sameSite, r.cookie.options.path,
                   r.cookie.token.usesRefreshSecret, r.cookie.token.expiresIn)) =
      Except.ok ("refresh_token", true, "lax", "/", true, some "7d") ∧
    (AuthService.login (some u) true).map
        (fun r => (r.cookie.name, r.cookie.options.httpOnly,
                   r.cookie.options.sameSite, r.cookie.options.path,
                   r.cookie.token.usesRefreshSecret, r.cookie.token.expiresIn)) =
      Except.ok ("refresh_token", true, "lax", "/", true, some "7d") :=
  ⟨rfl, rfl⟩

/-- Claim C10: no successful auth endpoint response carries the user's
stored password hash. The key sets of the returned user objects are
exactly `["id", "email", "createdAt"]` for register and login — the
entity's fields with `password` stripped by the rest destructuring —
and `["id", "email"]` for refresh; none contains a `"password"` key. -/
theorem auth_responses_omit_password (email hp createdAt tok em : String)
    (cid sub : Nat) (u v : UserEntity) :
    (AuthService.register email hp none cid createdAt).map
        (fun r => r.response.userObj.map Prod.fst) =
      Except.ok ["id", "email", "createdAt"] ∧
    (AuthService.login (some u) true).map
        (fun r => r.response.userObj.map Prod.fst) =
      Except.ok ["id", "email", "createdAt"] ∧
    (AuthService.refresh (some tok) (AuthService.VerifyOutcome.valid sub em)
        (fun _ => some v)).map
        (fun r => r.userObj.map Prod.fst) =
      Except.ok ["id", "email"] :=
  ⟨rfl, rfl, rfl⟩
